import Mathlib

/-!
Verification of `gke-events-notifier` (src/main.go, v0.14).

The program is an HTTP relay: it receives Pub/Sub push envelopes on `/`,
filters them by a comma-separated allow-list of `type_url` values, formats
a Slack payload and POSTs it to a configured webhook.  Below is a shallow
embedding of the program.  I/O boundaries are abstracted as explicit
inputs: JSON decoding of the request body becomes an `Except DecodeError
PubSubMessage` input (the handler only branches on whether `json.Unmarshal`
succeeded), and the outbound HTTP round-trip becomes a `DeliveryOutcome`
input (what `client.Do` returned for the single POST the code issues).
-/

namespace GkeEventsNotifier

/-- `PubSubMessage.Message.Attributes` (main.go lines 192-197). -/
structure MessageAttributes where
  clusterLocation : String
  clusterName : String
  projectId : String
  typeUrl : String
  deriving DecidableEq, Repr

/-- The inner `Message` struct of `PubSubMessage` (main.go lines 190-198).
`data` holds the decoded bytes as a string, matching `string(m.Message.Data)`. -/
structure InnerMessage where
  data : String
  attributes : MessageAttributes
  deriving DecidableEq, Repr

/-- `PubSubMessage` (main.go lines 189-200). -/
structure PubSubMessage where
  message : InnerMessage
  subscription : String
  deriving DecidableEq, Repr

/-- `SlackMessageAttachment` (main.go lines 209-213). -/
structure SlackMessageAttachment where
  text : String
  color : String
  mrkdwnIn : List String
  deriving DecidableEq, Repr

/-- `SlackRequestBody` (main.go lines 203-206). -/
structure SlackRequestBody where
  text : String
  attachments : List SlackMessageAttachment
  deriving DecidableEq, Repr

/-- `formatMessageAttributes` (main.go lines 272-281): four labelled lines
joined with a newline; the `type_url` line carries the full identifier. -/
def formatMessageAttributes (pubSubMessage : PubSubMessage) : String :=
  let result : List String := [
    "*cluster name:* " ++ pubSubMessage.message.attributes.clusterName,
    "*cluster location:* " ++ pubSubMessage.message.attributes.clusterLocation,
    "*project id:* " ++ pubSubMessage.message.attributes.projectId,
    "*type_url:* " ++ pubSubMessage.message.attributes.typeUrl]
  String.intercalate "\n" result

/-- Outcome of the single outbound HTTP POST performed by
`sendSlackNotification`: either `client.Do` failed at the transport level,
or a response with a status code and a body came back. -/
inductive DeliveryOutcome where
  | transportError (msg : String)
  | response (statusCode : Nat) (body : String)
  deriving DecidableEq, Repr

/-- `sendSlackNotification` (main.go lines 283-309), classification of the
outcome of its one `client.Do` call: a transport error is returned as-is;
otherwise the response body is compared with the literal `"ok"` and the
status code is never inspected. -/
def sendSlackNotification (outcome : DeliveryOutcome) : Except String Unit :=
  match outcome with
  | .transportError msg => .error msg
  | .response _ body =>
    if body != "ok" then
      .error ("Non-ok response returned from Slack: " ++ body)
    else
      .ok ()

/-- Attempt/backoff trace of `sendSlackNotification` (main.go lines 283-309).
The function body contains a single `client.Do` call and no loop and no
`time.Sleep`, so for any network behaviour it performs exactly one attempt
(consuming `net 0`) and records no inter-attempt waits. -/
structure DeliveryTrace where
  result : Except String Unit
  attempts : Nat
  sleeps : List Nat
  deriving Repr

/-- `sendSlackNotification` with its attempt trace made explicit: `net n`
is the outcome the `n`-th outbound call would observe; the source issues
exactly one call and never sleeps. -/
def sendSlackNotificationTrace (net : Nat → DeliveryOutcome) : DeliveryTrace :=
  { result := sendSlackNotification (net 0), attempts := 1, sleeps := [] }

/-- Character-list core of Go's `strings.Split(s, ",")`: split at every
comma; the empty input yields one empty piece.  Structural recursion so it
computes inside the kernel (Lean's `String.splitOn` is well-founded
recursion and does not reduce). -/
def splitCommaChars : List Char → List (List Char)
  | [] => [[]]
  | c :: rest =>
    match splitCommaChars rest with
    | [] => [[c]]
    | piece :: pieces =>
      if c == ',' then [] :: piece :: pieces
      else (c :: piece) :: pieces

/-- Go's `strings.Split(s, ",")` (main.go line 239): the list of comma
separated entries of the flag value; `strings.Split("", ",")` is `[""]`. -/
def stringsSplitComma (s : String) : List String :=
  (splitCommaChars s.data).map String.mk

/-- The type filter inlined in `handlePubSub` (main.go lines 238-253): if the
`--allowed-type-urls` flag is the empty string the whole check is skipped
(pass); otherwise the flag is split on `","` and the event's `type_url`
must be exactly equal (no trimming, case-sensitive) to some entry. -/
def typeUrlAllowed (allowedTypeUrls typeUrl : String) : Bool :=
  if allowedTypeUrls != "" then
    (stringsSplitComma allowedTypeUrls).any (fun allowedTypeUrl => typeUrl == allowedTypeUrl)
  else
    true

/-- Decode failure of the request body (main.go lines 221-231): either
`ioutil.ReadAll` or `json.Unmarshal` failed; both paths answer
`http.Error(w, "Bad Request", http.StatusBadRequest)`. -/
inductive DecodeError where
  | readError
  | unmarshalError
  deriving DecidableEq, Repr

/-- What the handler produced for one inbound request: the HTTP status and
body written to the caller, and, when an outbound POST was made, the Slack
payload together with the result `sendSlackNotification` returned for it. -/
structure HandlerResult where
  status : Nat
  body : String
  outbound : Option (SlackRequestBody × Except String Unit)
  deriving Repr

/-- `handlePubSub` (main.go lines 219-270).  `decoded` is the result of
reading and unmarshalling the request body; `net` is what the outbound POST
would observe.  On decode failure: 400 `"Bad Request\n"` (`http.Error`
appends a newline).  Then the source checks `data != ""`, `type_url != ""`,
and the allow-list; a failed check returns without writing (Go answers 200
with an empty body).  When all pass it builds the Slack payload, sends it,
and only logs the delivery error — the handler still answers 200. -/
def handlePubSub (allowedTypeUrls : String)
    (decoded : Except DecodeError PubSubMessage)
    (net : DeliveryOutcome) : HandlerResult :=
  match decoded with
  | .error _ => { status := 400, body := "Bad Request\n", outbound := none }
  | .ok m =>
    let data := m.message.data
    if data != "" then
      if m.message.attributes.typeUrl != "" then
        if !typeUrlAllowed allowedTypeUrls m.message.attributes.typeUrl then
          { status := 200, body := "", outbound := none }
        else
          let slackRequestBody : SlackRequestBody :=
            { text := data,
              attachments := [{ text := formatMessageAttributes m,
                                color := "", mrkdwnIn := [] }] }
          { status := 200, body := "",
            outbound := some (slackRequestBody, sendSlackNotification net) }
      else
        { status := 200, body := "", outbound := none }
    else
      { status := 200, body := "", outbound := none }

/-- `internalHealth` (main.go lines 215-217): writes `"OK\n"`, implicit 200,
touches nothing else. -/
def internalHealth : HandlerResult :=
  { status := 200, body := "OK\n", outbound := none }

/-- The two routes registered in `main` (main.go lines 324-325). -/
inductive Route where
  | pubsub
  | health
  deriving DecidableEq, Repr

/-- `net/http.ServeMux` dispatch for the two registered patterns
(main.go lines 324-325): the pattern `"/health"` does not end in a slash so
it matches only the exact path `/health`; the pattern `"/"` matches every
other path. -/
def routeFor (path : String) : Route :=
  if path == "/health" then .health else .pubsub

/-- One request against the server: dispatch the path through the mux and
run the matched handler. -/
def serve (allowedTypeUrls : String) (path : String)
    (decoded : Except DecodeError PubSubMessage)
    (net : DeliveryOutcome) : HandlerResult :=
  match routeFor path with
  | .health => internalHealth
  | .pubsub => handlePubSub allowedTypeUrls decoded net

/-- Modelled from the spec: "an event-type short name obtained by taking the
substring after the last `.` delimiter in the full type identifier (if no
delimiter is present, the short name equals the full identifier)".  Used
only to compare the spec's claimed formatter behaviour with the code's. -/
def specShortName (s : String) : String :=
  String.mk ((s.data.reverse.takeWhile (fun c => c != '.')).reverse)

/-- Modelled from the spec: "whitespace-trimmed" form of an identifier or
allow-list entry (the code itself never trims).  Used only to state the
spec's claimed filter behaviour. -/
def specTrim (s : String) : String :=
  String.mk (((s.data.dropWhile Char.isWhitespace).reverse.dropWhile
    Char.isWhitespace).reverse)

/-- Modelled from the spec: a "success status code" of the destination's
response (HTTP 2xx).  The code never inspects the status code; this is used
only to state the spec's claimed classification. -/
def isSuccessStatus (statusCode : Nat) : Bool :=
  200 ≤ statusCode && statusCode < 300

/-- A concrete decoded envelope used in witnesses and counterexamples. -/
def sampleMsg : PubSubMessage :=
  { message :=
      { data := "hello",
        attributes :=
          { clusterLocation := "us-central1", clusterName := "c1",
            projectId := "p1", typeUrl := "T" } },
    subscription := "projects/p1/subscriptions/s1" }

/-- Attributes whose `type_url` carries the spec's dotted example. -/
def dottedMsg : PubSubMessage :=
  { message :=
      { data := "d",
        attributes :=
          { clusterLocation := "", clusterName := "", projectId := "",
            typeUrl := "type.googleapis.com/google.Foo" } },
    subscription := "" }

/-- Two envelopes identical except for the `subscription` field. -/
def subMsgA : PubSubMessage :=
  { message := sampleMsg.message, subscription := "sub-a" }

/-- Second envelope of the pair differing only in `subscription`. -/
def subMsgB : PubSubMessage :=
  { message := sampleMsg.message, subscription := "sub-b" }

/-! ## Theorems -/

/-- Characterisation of the filter for a non-empty flag value: pass exactly
when the identifier is literally one of the comma-split entries. -/
theorem typeUrlAllowed_iff_mem (s t : String) (h : s ≠ "") :
    typeUrlAllowed s t = true ↔ t ∈ stringsSplitComma s := by
  have hb : (s != "") = true := bne_iff_ne.mpr h
  unfold typeUrlAllowed
  rw [if_pos hb, List.any_eq_true]
  constructor
  · rintro ⟨a, ha, hba⟩
    rw [beq_iff_eq] at hba
    subst hba
    exact ha
  · intro ht
    exact ⟨t, ht, beq_self_eq_true t⟩

/-- C1: for every accepted event the delivery operation makes at most 3
outbound attempts, and the waits between consecutive attempts follow the
schedule baseDelay * 2 ^ (attemptNumber - 1) with baseDelay = 1 time unit
(the code performs exactly one attempt, so the wait list is empty). -/
theorem delivery_makes_at_most_three_attempts_with_doubling_backoff
    (net : Nat → DeliveryOutcome) :
    (sendSlackNotificationTrace net).attempts ≤ 3 ∧
    (sendSlackNotificationTrace net).sleeps =
      (List.range ((sendSlackNotificationTrace net).attempts - 1)).map
        (fun i => 1 * 2 ^ i) := by
  constructor
  · simp [sendSlackNotificationTrace]
  · simp [sendSlackNotificationTrace]

/-- C2 counterexample: an accepted event whose delivery fails (the
destination answered status 200 with body "no") is answered with HTTP 200,
not 500: the handler only logs the delivery error. -/
theorem delivery_failure_answers_200_cex :
    (handlePubSub "" (Except.ok sampleMsg) (.response 200 "no")).outbound =
      some ({ text := "hello",
              attachments := [{ text := formatMessageAttributes sampleMsg,
                                color := "", mrkdwnIn := [] }] },
            Except.error "Non-ok response returned from Slack: no") ∧
    (handlePubSub "" (Except.ok sampleMsg) (.response 200 "no")).status = 200 ∧
    (handlePubSub "" (Except.ok sampleMsg) (.response 200 "no")).status ≠ 500 :=
  ⟨rfl, rfl, by decide⟩

/-- C2 corrected: when the delivery operation returns a failure the handler
still responds HTTP 200 to the inbound caller (the failure is only
logged). -/
theorem delivery_failure_answers_200 (allowedTypeUrls : String)
    (decoded : Except DecodeError PubSubMessage) (net : DeliveryOutcome)
    (p : SlackRequestBody) (e : String)
    (h : (handlePubSub allowedTypeUrls decoded net).outbound =
      some (p, Except.error e)) :
    (handlePubSub allowedTypeUrls decoded net).status = 200 := by
  cases decoded with
  | error err => simp [handlePubSub] at h
  | ok m =>
    simp only [handlePubSub]
    repeat' split
    all_goals rfl

/-- C2 witness: instantiation of the corrected claim at a concrete failed
delivery. -/
theorem delivery_failure_answers_200_witness :
    (handlePubSub "" (Except.ok sampleMsg) (.response 200 "no")).status = 200 :=
  delivery_failure_answers_200 "" (Except.ok sampleMsg) (.response 200 "no")
    _ _ rfl

/-- C3 counterexample: allow-list value " a" (a single entry " a") and
identifier "a": the whitespace-trimmed forms agree, yet the filter rejects,
because the code compares entries without any trimming. -/
theorem filter_ignores_trimming_cex :
    typeUrlAllowed " a" "a" = false ∧
    ((stringsSplitComma " a").map specTrim).contains (specTrim "a") = true :=
  ⟨rfl, rfl⟩

/-- C3 corrected: for a non-empty allow-list the filter passes t iff t is
exactly (case-sensitively and without any trimming) equal to some
comma-split entry. -/
theorem filter_passes_iff_exact_entry_match (s t : String) (h : s ≠ "") :
    typeUrlAllowed s t = true ↔ t ∈ stringsSplitComma s :=
  typeUrlAllowed_iff_mem s t h

/-- C3 witness: instantiation of the corrected claim at allow-list "x,y"
and identifier "y". -/
theorem filter_passes_iff_exact_entry_match_witness :
    typeUrlAllowed "x,y" "y" = true :=
  (filter_passes_iff_exact_entry_match "x,y" "y" (by decide)).mpr (by decide)

/-- C4 counterexample: a response with non-success status code 500 and body
"ok" is classified as terminal success — the status code is never
inspected, contradicting the claim that non-success status codes fail. -/
theorem success_classification_ignores_status_code_cex :
    sendSlackNotification (.response 500 "ok") = Except.ok () ∧
    isSuccessStatus 500 = false :=
  ⟨rfl, rfl⟩

/-- C4 corrected: an attempt that received a response is a terminal success
iff the response body is exactly "ok", irrespective of the status code. -/
theorem success_iff_body_ok (statusCode : Nat) (body : String) :
    sendSlackNotification (.response statusCode body) = Except.ok () ↔
      body = "ok" := by
  by_cases h : body = "ok"
  · subst h; simp [sendSlackNotification]
  · simp [sendSlackNotification, h]

/-- C5 counterexample: for type_url "type.googleapis.com/google.Foo" the
formatter emits the full identifier, not the short name "Foo" the claim
mandates for the event-type field. -/
theorem formatter_keeps_full_type_identifier_cex :
    formatMessageAttributes dottedMsg =
      "*cluster name:* \n*cluster location:* \n*project id:* \n*type_url:* type.googleapis.com/google.Foo" ∧
    specShortName "type.googleapis.com/google.Foo" = "Foo" ∧
    formatMessageAttributes dottedMsg ≠
      "*cluster name:* \n*cluster location:* \n*project id:* \n*type_url:* Foo" :=
  ⟨rfl, rfl, by decide⟩

/-- C5 corrected: the formatter's event-type field carries the full type
identifier verbatim; no short-name extraction is performed. -/
theorem formatter_event_type_field_is_full_identifier (m : PubSubMessage) :
    ∃ p : String, formatMessageAttributes m =
      p ++ ("*type_url:* " ++ m.message.attributes.typeUrl) :=
  ⟨_, rfl⟩

/-- C6: an outbound delivery call is initiated only for a decoded event
with non-empty data, non-empty type_url, and an allow-list that is empty
or contains the type_url exactly. -/
theorem outbound_call_requires_validation (allowedTypeUrls : String)
    (decoded : Except DecodeError PubSubMessage) (net : DeliveryOutcome)
    (x : SlackRequestBody × Except String Unit)
    (h : (handlePubSub allowedTypeUrls decoded net).outbound = some x) :
    ∃ m, decoded = Except.ok m ∧ m.message.data ≠ "" ∧
      m.message.attributes.typeUrl ≠ "" ∧
      (allowedTypeUrls = "" ∨
        m.message.attributes.typeUrl ∈ stringsSplitComma allowedTypeUrls) := by
  cases decoded with
  | error err => simp [handlePubSub] at h
  | ok m =>
    refine ⟨m, rfl, ?_⟩
    simp only [handlePubSub] at h
    split at h
    case isFalse => simp at h
    case isTrue hdata =>
      split at h
      case isFalse => simp at h
      case isTrue hurl =>
        split at h
        case isTrue => simp at h
        case isFalse hfilter =>
          have hpass : typeUrlAllowed allowedTypeUrls
              m.message.attributes.typeUrl = true := by
            revert hfilter
            cases typeUrlAllowed allowedTypeUrls m.message.attributes.typeUrl <;>
              simp
          refine ⟨bne_iff_ne.mp hdata, bne_iff_ne.mp hurl, ?_⟩
          by_cases hal : allowedTypeUrls = ""
          · exact Or.inl hal
          · exact Or.inr ((typeUrlAllowed_iff_mem allowedTypeUrls _ hal).mp hpass)

/-- C6 witness: instantiation at a concrete accepted event with allow-list
"T,U". -/
theorem outbound_call_requires_validation_witness :
    ∃ m, (Except.ok sampleMsg : Except DecodeError PubSubMessage) =
        Except.ok m ∧
      m.message.data ≠ "" ∧ m.message.attributes.typeUrl ≠ "" ∧
      ("T,U" = "" ∨ m.message.attributes.typeUrl ∈ stringsSplitComma "T,U") :=
  outbound_call_requires_validation "T,U" (Except.ok sampleMsg)
    (.response 200 "ok") _ rfl

/-- C7: a request whose body fails to decode is answered 400 "Bad Request"
and no outbound delivery call is made. -/
theorem malformed_body_yields_400_and_no_outbound (allowedTypeUrls : String)
    (e : DecodeError) (net : DeliveryOutcome) :
    (handlePubSub allowedTypeUrls (Except.error e) net).status = 400 ∧
    (handlePubSub allowedTypeUrls (Except.error e) net).body =
      "Bad Request\n" ∧
    (handlePubSub allowedTypeUrls (Except.error e) net).outbound = none :=
  ⟨rfl, rfl, rfl⟩

/-- C8: the empty allow-list is the allow-all sentinel: every type
identifier passes the filter. -/
theorem empty_allowlist_passes_every_type (t : String) :
    typeUrlAllowed "" t = true := rfl

/-- C9 counterexample: "/healthz" is not the registered liveness path — the
mux sends it to handlePubSub ("/health" is the liveness path), and a GET's
empty body fails JSON decoding, so the response is 400 "Bad Request\n",
not 200 "OK\n". -/
theorem healthz_not_liveness_route_cex :
    routeFor "/healthz" = Route.pubsub ∧
    ¬ ((serve "" "/healthz" (Except.error DecodeError.unmarshalError)
          (.response 200 "ok")).status = 200 ∧
       (serve "" "/healthz" (Except.error DecodeError.unmarshalError)
          (.response 200 "ok")).body = "OK\n") :=
  ⟨rfl, by decide⟩

/-- C9 corrected: the liveness route is "/health": it always answers 200
with body "OK\n" and never initiates an outbound call, regardless of
configuration, request body and network behaviour. -/
theorem health_route_always_ok (allowedTypeUrls : String)
    (decoded : Except DecodeError PubSubMessage) (net : DeliveryOutcome) :
    (serve allowedTypeUrls "/health" decoded net).status = 200 ∧
    (serve allowedTypeUrls "/health" decoded net).body = "OK\n" ∧
    (serve allowedTypeUrls "/health" decoded net).outbound = none :=
  ⟨rfl, rfl, rfl⟩

/-- C10: the subscription field is decoded but never read: two envelopes
with equal message parts yield the same filter decision and the same
handler result (status, body, and outbound Slack payload with its delivery
result). -/
theorem subscription_noninterference (allowedTypeUrls : String)
    (net : DeliveryOutcome) (m₁ m₂ : PubSubMessage)
    (h : m₁.message = m₂.message) :
    typeUrlAllowed allowedTypeUrls m₁.message.attributes.typeUrl =
      typeUrlAllowed allowedTypeUrls m₂.message.attributes.typeUrl ∧
    handlePubSub allowedTypeUrls (Except.ok m₁) net =
      handlePubSub allowedTypeUrls (Except.ok m₂) net := by
  obtain ⟨msg₁, sub₁⟩ := m₁
  obtain ⟨msg₂, sub₂⟩ := m₂
  have h' : msg₁ = msg₂ := h
  subst h'
  exact ⟨rfl, rfl⟩

/-- C10 witness: instantiation at two concrete envelopes differing only in
subscription. -/
theorem subscription_noninterference_witness :
    typeUrlAllowed "" subMsgA.message.attributes.typeUrl =
      typeUrlAllowed "" subMsgB.message.attributes.typeUrl ∧
    handlePubSub "" (Except.ok subMsgA) (.response 200 "ok") =
      handlePubSub "" (Except.ok subMsgB) (.response 200 "ok") :=
  subscription_noninterference "" (.response 200 "ok") subMsgA subMsgB rfl

end GkeEventsNotifier
